import Mathlib

/-!
Shallow embedding of the session-token lifecycle and role-assignment logic of
the nextjs-fastapi-auth backend.

Timestamps are integer Unix seconds (the Python code works with
`datetime.timestamp()` floats; the claims only involve comparisons and
sums of whole-second durations, so integers are faithful).

A JWT is modelled as either a well-formed signed payload together with the
key that signed it, or an unparseable blob.  `jwtDecode` models
`jose.jwt.decode`: the signature is checked first (a key mismatch or a
malformed blob raises `JWTError`), then — only when expiry verification is
on and an `exp` claim is present — the token is rejected with
`ExpiredSignatureError` exactly when `now > exp` (jose uses a strict
comparison with zero leeway).
-/

namespace AuthSpec

/-- The `SECRET_KEY` of back-end/app.py (the dev default). -/
def SECRET_KEY : String := "a_very_secret_dev_key_change_me"

/-- The `ACCESS_TOKEN_EXPIRE_HOURS = 24`, in seconds. -/
def ACCESS_TOKEN_EXPIRE_SECONDS : Int := 24 * 3600

/-- The `REFRESH_INTERVAL_HOURS = 1`, in seconds. -/
def REFRESH_INTERVAL_SECONDS : Int := 3600

/-- The `MAX_TOKEN_LIFETIME_DAYS = 7`, in seconds. -/
def MAX_TOKEN_LIFETIME_SECONDS : Int := 7 * 24 * 3600

/-- The `UserPayload` pydantic model of app.py. -/
structure UserPayload where
  userId : Int
  username : String
  fullname : String
  title : String
  email : String
  roles : List Int
deriving Repr, DecidableEq

/-- The hard-coded `users_db["admin_user"]` entry. -/
def admin_user_payload : UserPayload :=
  { userId := 101, username := "admin_user", fullname := "Admin Von Admin",
    title := "System Administrator", email := "admin@example.com", roles := [1, 2] }

/-- The hard-coded `users_db["regular_user"]` entry. -/
def regular_user_payload : UserPayload :=
  { userId := 202, username := "regular_user", fullname := "Reginald User",
    title := "Standard User", email := "user@example.com", roles := [2] }

/-- The hard-coded user store `users_db` of app.py, as a lookup function
(`users_db.get`). -/
def users_db : String → Option UserPayload := fun name =>
  if name = "admin_user" then some admin_user_payload
  else if name = "regular_user" then some regular_user_payload
  else none

/-- The claim set carried by a token.  Every claim is optional so that
missing-claim behaviour (`payload.get(...)` returning `None`,
`payload["exp"]` raising `KeyError`) can be modelled. -/
structure Claims where
  sub : Option String
  iat : Option Int
  exp : Option Int
  max_exp : Option Int
  userId : Option Int
  username : Option String
  fullname : Option String
  title : Option String
  email : Option String
  roles : Option (List Int)
deriving Repr, DecidableEq

/-- A serialized JWT: a signed claim set together with the signing key
(HMAC verification succeeds exactly when the verifier holds the same key),
or an unparseable blob. -/
inductive Token
  | signed (payload : Claims) (key : String)
  | malformed (raw : String)
deriving Repr, DecidableEq

/-- The two failure classes of `jose.jwt.decode` that the code
distinguishes: generic `JWTError` (bad signature / unparseable) and
`ExpiredSignatureError` (valid signature, `exp` in the past). -/
inductive DecodeError
  | jwtError
  | expiredSignature
deriving Repr, DecidableEq

/-- The `jose.jwt.decode(token, key, algorithms=[ALGORITHM], options=...)`.
Signature first; `exp` is checked only when `verifyExp` is true and the
claim is present, and fails strictly (`now > exp`). -/
def jwtDecode (token : Token) (key : String) (verifyExp : Bool) (now : Int) :
    Except DecodeError Claims :=
  match token with
  | .malformed _ => .error .jwtError
  | .signed p k =>
    if k ≠ key then .error .jwtError
    else if verifyExp then
      match p.exp with
      | some e => if now > e then .error .expiredSignature else .ok p
      | none => .ok p
    else .ok p

/-- The `create_jwt_token(user, existing_max_exp)` of app.py: the claim set it
encodes.  `exp = now + ACCESS_TTL`; `max_exp` reuses `existing_max_exp`
when given, otherwise `max(access_expire, now + MAX_LIFETIME)`. -/
def create_jwt_token (now : Int) (user : UserPayload)
    (existing_max_exp : Option Int) : Claims :=
  let access_expire := now + ACCESS_TOKEN_EXPIRE_SECONDS
  let max_expire_ts :=
    match existing_max_exp with
    | some ts => ts
    | none => max access_expire (now + MAX_TOKEN_LIFETIME_SECONDS)
  { sub := some user.username, iat := some now, exp := some access_expire,
    max_exp := some max_expire_ts, userId := some user.userId,
    username := some user.username, fullname := some user.fullname,
    title := some user.title, email := some user.email,
    roles := some user.roles }

/-- The `UserPayload(**payload)`: pydantic reconstruction of the identity model
from the decoded claims; fails (ValidationError) when an identity field is
absent. -/
def toUserPayload (p : Claims) : Option UserPayload :=
  match p.userId, p.username, p.fullname, p.title, p.email, p.roles with
  | some a, some b, some c, some d, some e, some f =>
    some { userId := a, username := b, fullname := c, title := d,
           email := e, roles := f }
  | _, _, _, _, _, _ => none

/-- The three HTTP 401 outcomes of `verify_jwt_token`:
`credentials` = "Could not validate credentials",
`tokenExpired` = "Token has expired",
`maxLifetime` = "Maximum token lifetime exceeded. Please log in again.". -/
inductive VerifyError
  | credentials
  | tokenExpired
  | maxLifetime
deriving Repr, DecidableEq

/-- The `verify_jwt_token(token)` of app.py: decode with expiry verification,
require `sub` and `max_exp` to be present, reject when
`now > max_exp`, then rebuild the `UserPayload` (a pydantic validation
failure lands in the catch-all `except` and becomes `credentials`). -/
def verify_jwt_token (now : Int) (token : Token) :
    Except VerifyError UserPayload :=
  match jwtDecode token SECRET_KEY true now with
  | .error .expiredSignature => .error .tokenExpired
  | .error .jwtError => .error .credentials
  | .ok payload =>
    match payload.sub, payload.max_exp with
    | some _, some max_exp_ts =>
      if now > max_exp_ts then .error .maxLifetime
      else
        match toUserPayload payload with
        | some u => .ok u
        | none => .error .credentials
    | _, _ => .error .credentials

/-- Python truthiness of `payload.get("sub")`: `None` and `""` are falsy. -/
def truthyStr : Option String → Bool
  | none => false
  | some s => s ≠ ""

/-- Python truthiness of `payload.get("iat")` / `payload.get("max_exp")`:
`None` and `0` are falsy. -/
def truthyInt : Option Int → Bool
  | none => false
  | some n => n ≠ 0

/-- The failure outcomes of the refresh flow (`get_token_data_for_refresh`
plus the `refresh_token` endpoint), keyed by their HTTP details:
`missingTokenCookie` = 401 "Missing token cookie for refresh";
`invalidTokenFormat` = 401 "Invalid token format" (initial decode failed);
`invalidTokenStructure` = 401 "Invalid token structure for refresh";
`maxLifetimeExceeded` = 401 "Maximum session lifetime exceeded...";
`verifyRejected e` = the re-raised `verify_jwt_token` failure `e`;
`internalInconsistency` = 500 "Internal inconsistency". -/
inductive RefreshError
  | missingTokenCookie
  | invalidTokenFormat
  | invalidTokenStructure
  | maxLifetimeExceeded
  | verifyRejected (e : VerifyError)
  | internalInconsistency
deriving Repr, DecidableEq

/-- The `get_token_data_for_refresh(request)`: read the cookie, decode with
`verify_exp: False`, and require `sub`, `iat` and `max_exp` to be truthy
(`not payload.get(...)`). -/
def get_token_data_for_refresh (now : Int) (cookie : Option Token) :
    Except RefreshError (Token × Claims) :=
  match cookie with
  | none => .error .missingTokenCookie
  | some token =>
    match jwtDecode token SECRET_KEY false now with
    | .error _ => .error .invalidTokenFormat
    | .ok payload =>
      if truthyStr payload.sub && truthyInt payload.iat
          && truthyInt payload.max_exp then
        .ok (token, payload)
      else .error .invalidTokenStructure

/-- The two non-error results of the `/refresh` endpoint:
`notYetEligible t` is the JSON body with `refresh_success: False` and
`next_refresh_allowed_at = t`; `refreshed` has `refresh_success: True`. -/
inductive RefreshResult
  | notYetEligible (next_refresh_allowed_at : Int)
  | refreshed
deriving Repr, DecidableEq

/-- The `/refresh` endpoint of app.py.  The second component of the result
is the cookie attached by `attach_token_to_response` (`none` when no cookie
is set or replaced).  The `.getD` defaults are unreachable: the dependency
has already required `sub`, `iat` and `max_exp` to be truthy.
When full verification of the original token fails, only the
"Token has expired" detail is tolerated (the only 401 detail of
`verify_jwt_token` containing the word "expired"); the other failures are
re-raised. -/
def refresh_token (now : Int) (cookie : Option Token) :
    Except RefreshError (RefreshResult × Option Token) :=
  match get_token_data_for_refresh now cookie with
  | .error e => .error e
  | .ok (token, payload) =>
    let username := payload.sub.getD ""
    let max_exp_ts := payload.max_exp.getD 0
    let issued_at_ts := payload.iat.getD 0
    if now > max_exp_ts then .error .maxLifetimeExceeded
    else
      let refresh_allowed_at_ts := issued_at_ts + REFRESH_INTERVAL_SECONDS
      if now < refresh_allowed_at_ts then
        .ok (.notYetEligible refresh_allowed_at_ts, none)
      else
        match verify_jwt_token now token with
        | .error .credentials => .error (.verifyRejected .credentials)
        | .error .maxLifetime => .error (.verifyRejected .maxLifetime)
        | _ =>
          match users_db username with
          | none => .error .internalInconsistency
          | some user =>
            .ok (.refreshed,
              some (Token.signed
                (create_jwt_token now user (some max_exp_ts)) SECRET_KEY))

/-! ## Renewal middleware (back-end/src/middleware.py) -/

/-- The `SECRET_KEY` of src/middleware.py (its dev default differs from
app.py's). -/
def MW_SECRET_KEY : String := "default_secret"

/-- The `TOKEN_RENEW_THRESHOLD_MINUTES = 15`, in seconds. -/
def TOKEN_RENEW_THRESHOLD_SECONDS : Int := 15 * 60

/-- The `ACCESS_TOKEN_EXPIRE_MINUTES = 20` of the middleware, in seconds. -/
def MW_ACCESS_TOKEN_EXPIRE_SECONDS : Int := 20 * 60

/-- Outcome of `TokenRenewalMiddleware.dispatch`:
`passThrough` = the handler runs and the response is returned unchanged;
`renewed t` = the handler runs and the cookie is replaced by `t`;
`unauthorized` = 401 short-circuit, the handler never runs;
`keyErrorCrash` = unhandled `KeyError` on `payload["exp"]` (a correctly
signed token with no `exp` claim). -/
inductive MwOutcome
  | passThrough
  | renewed (newToken : Token)
  | unauthorized
  | keyErrorCrash
deriving Repr, DecidableEq

/-- The `TokenRenewalMiddleware.dispatch`, as a function of the current time
and the `access_token` cookie.  The decode verifies `exp`
(`ExpiredSignatureError` → 401; any other `JWTError` → pass through).
`(exp - now).total_seconds() / 60 <= 15` is `exp - now ≤ 900` in seconds;
on renewal `payload["exp"]` alone is overwritten with `now + 20 minutes`
and the payload is re-signed. -/
def mw_dispatch (now : Int) (cookie : Option Token) : MwOutcome :=
  match cookie with
  | none => .passThrough
  | some token =>
    match jwtDecode token MW_SECRET_KEY true now with
    | .error .expiredSignature => .unauthorized
    | .error .jwtError => .passThrough
    | .ok payload =>
      match payload.exp with
      | none => .keyErrorCrash
      | some e =>
        if e - now ≤ TOKEN_RENEW_THRESHOLD_SECONDS then
          .renewed (Token.signed
            { payload with exp := some (now + MW_ACCESS_TOKEN_EXPIRE_SECONDS) }
            MW_SECRET_KEY)
        else .passThrough

/-! ## Database layer (back-end/db/models.py, back-end/routers/srv/auth.py,
back-end/routers/auth.py) -/

/-- The `role` table row. -/
structure Role where
  id : Int
  name : String
  description : Option String := none
deriving Repr, DecidableEq

/-- The `role_permission` table row (the role-assignment pair). -/
structure RolePermission where
  role_id : Int
  account_id : Int
deriving Repr, DecidableEq

/-- The `log_role_permission` audit table row. -/
structure LogRolePermission where
  account_id : Int
  role_id : Int
  admin_id : Int
  action : String
  timestamp : Int
deriving Repr, DecidableEq

/-- The `account` table row (fields used by the login flow). -/
structure Account where
  id : Int
  username : String
  full_name : Option String := none
  title : Option String := none
  is_domain_user : Option Bool := none
  is_super_admin : Option Bool := none
deriving Repr, DecidableEq

/-- The persistent store the role operations read and write. -/
structure DBState where
  roles : List Role
  role_permissions : List RolePermission
  log_role_permissions : List LogRolePermission
deriving Repr, DecidableEq

/-- SQLAlchemy `result.scalar_one_or_none()`: `None` on no row, the row
when unique, `MultipleResultsFound` otherwise. -/
def scalar_one_or_none (rows : List α) : Except String (Option α) :=
  match rows with
  | [] => .ok none
  | [r] => .ok (some r)
  | _ => .error "MultipleResultsFound"

/-- The `ensure_user_has_role(session, account_id, role_id, username)`:
select the (account_id, role_id) pair; if present, return the
already-assigned message without writing; otherwise insert the
`RolePermission` row and commit.  (The source messages quote the username
in single quotes; the quotes are elided here.)  Note: no
`LogRolePermission` row is ever written by this function. -/
def ensure_user_has_role (db : DBState) (account_id role_id : Int)
    (username : String) : Except String (DBState × String) :=
  match scalar_one_or_none (db.role_permissions.filter fun rp =>
      rp.account_id == account_id && rp.role_id == role_id) with
  | .error e => .error e
  | .ok (some _) =>
    .ok (db, "Role already assigned to user " ++ username ++ ".")
  | .ok none =>
    .ok ({ db with role_permissions :=
            db.role_permissions ++ [{ role_id := role_id, account_id := account_id }] },
         "Role successfully assigned to user " ++ username ++ ".")

/-- The `read_roles(session, account_id=None)`: when `account_id` is truthy
(`if account_id:` — `None` and `0` are falsy), the names produced by the
inner join of `role` and `role_permission` on `role.id = role_id`
filtered to `account_id`; otherwise `select(Role.name)`, all role names. -/
def read_roles (db : DBState) (account_id : Option Int := none) : List String :=
  if truthyInt account_id then
    let aid := account_id.getD 0
    (db.roles.map fun r =>
      (db.role_permissions.filter fun rp =>
        rp.role_id == r.id && rp.account_id == aid).map fun _ => r.name).flatten
  else
    db.roles.map Role.name

/-- The `get_user_roles(session, user)` of routers/auth.py: the super-admin
truthiness test selects between the all-roles view and the per-account
view. -/
def get_user_roles (db : DBState) (user : Account) : List String :=
  if user.is_super_admin == some true then read_roles db none
  else read_roles db (some user.id)

/-! ## Helper predicates and example states -/

/-- The issuance invariant of the spec, on a claim set: the access expiry
claim does not exceed the absolute expiry claim (vacuous when either is
absent). -/
def expWithinMaxB (c : Claims) : Bool :=
  match c.exp, c.max_exp with
  | some e, some m => e ≤ m
  | _, _ => true

/-- A token whose signature does not verify under app.py's signing
secret: unparseable, or signed under a different key. -/
def signatureInvalid (t : Token) : Bool :=
  match t with
  | .malformed _ => true
  | .signed _ k => k ≠ SECRET_KEY

/-- A token whose signature does not verify under the middleware's
signing secret. -/
def mwSignatureInvalid (t : Token) : Bool :=
  match t with
  | .malformed _ => true
  | .signed _ k => k ≠ MW_SECRET_KEY

/-- The store state after inserting the (account, role) assignment row,
as `ensure_user_has_role` builds it. -/
def grantedState (db : DBState) (account_id role_id : Int) : DBState :=
  { db with role_permissions :=
      db.role_permissions ++ [{ role_id := role_id, account_id := account_id }] }

/-- A small concrete store: the two seeded roles, no assignments, empty
audit log. -/
def dbExample : DBState :=
  { roles := [{ id := 1, name := "Admin" }, { id := 2, name := "User" }],
    role_permissions := [], log_role_permissions := [] }

/-- A claim set with every claim absent (building block for handcrafted
tokens). -/
def noneClaims : Claims :=
  { sub := none, iat := none, exp := none, max_exp := none, userId := none,
    username := none, fullname := none, title := none, email := none,
    roles := none }

/-! ## Theorems -/

/-- C2: for every identity in the user store, verifying a token
immediately after issuing it for that identity — at any time before the
token's access expiry — succeeds and returns exactly the issued identity
(so every identity claim: userId, username, fullname, title, email,
roles, is preserved). -/
theorem C2_verify_after_issue (name : String) (u : UserPayload) (t now : Int)
    (hu : users_db name = some u) (h1 : t ≤ now)
    (h2 : now < t + ACCESS_TOKEN_EXPIRE_SECONDS) :
    verify_jwt_token now (Token.signed (create_jwt_token t u none) SECRET_KEY)
      = .ok u := by
  have hexp : ¬ (t + ACCESS_TOKEN_EXPIRE_SECONDS < now) := by omega
  have hmax : ¬ (max (t + ACCESS_TOKEN_EXPIRE_SECONDS)
      (t + MAX_TOKEN_LIFETIME_SECONDS) < now) := by
    have := le_max_left (t + ACCESS_TOKEN_EXPIRE_SECONDS)
      (t + MAX_TOKEN_LIFETIME_SECONDS)
    omega
  simp [verify_jwt_token, jwtDecode, create_jwt_token, toUserPayload,
    hexp, hmax]

/-- C2 witness: the admin identity round-trips through issue-then-verify. -/
theorem C2_witness :
    verify_jwt_token 100
      (Token.signed (create_jwt_token 0 admin_user_payload none) SECRET_KEY)
      = .ok admin_user_payload :=
  C2_verify_after_issue "admin_user" admin_user_payload 0 100 (by decide)
    (by decide) (by decide)

/-- C3: a correctly signed, well-formed token (truthy `sub`, `iat`,
`max_exp`) whose `max_exp` is strictly in the past is rejected by the
refresh flow with the maximum-lifetime 401, whatever its `exp` and `iat`
(so independently of access-expiry state and before the
refresh-interval check, which reads `iat`). -/
theorem C3_refresh_past_max_lifetime (now : Int) (c : Claims)
    (hsub : truthyStr c.sub = true) (hiat : truthyInt c.iat = true)
    (hmax : truthyInt c.max_exp = true)
    (hpast : c.max_exp.getD 0 < now) :
    refresh_token now (some (Token.signed c SECRET_KEY))
      = .error .maxLifetimeExceeded := by
  simp [refresh_token, get_token_data_for_refresh, jwtDecode, hsub, hiat,
    hmax, hpast]

/-- C3 witness: a week-old admin token is refused with the
maximum-lifetime error at time 1000000. -/
theorem C3_witness :
    refresh_token 1000000
      (some (Token.signed (create_jwt_token 1000 admin_user_payload none)
        SECRET_KEY))
      = .error .maxLifetimeExceeded :=
  C3_refresh_past_max_lifetime 1000000
    (create_jwt_token 1000 admin_user_payload none) (by decide) (by decide)
    (by decide) (by decide)

/-- C4: a correctly signed, well-formed token within its absolute
lifetime, refreshed strictly before `iat + REFRESH_INTERVAL`, yields the
non-error not-yet-eligible result carrying `iat + REFRESH_INTERVAL` as
`next_refresh_allowed_at`, and no cookie is set or replaced. -/
theorem C4_refresh_interval_not_met (now : Int) (c : Claims)
    (hsub : truthyStr c.sub = true) (hiat : truthyInt c.iat = true)
    (hmax : truthyInt c.max_exp = true)
    (hlife : ¬ (c.max_exp.getD 0 < now))
    (hearly : now < c.iat.getD 0 + REFRESH_INTERVAL_SECONDS) :
    refresh_token now (some (Token.signed c SECRET_KEY))
      = .ok (.notYetEligible (c.iat.getD 0 + REFRESH_INTERVAL_SECONDS), none) := by
  simp [refresh_token, get_token_data_for_refresh, jwtDecode, hsub, hiat,
    hmax, hlife, hearly]

/-- C4 witness: a token issued at 1000 and refreshed at 2000 gets
not-yet-eligible with next allowed time 4600 and no cookie. -/
theorem C4_witness :
    refresh_token 2000
      (some (Token.signed (create_jwt_token 1000 admin_user_payload none)
        SECRET_KEY))
      = .ok (.notYetEligible 4600, none) := by
  have h := C4_refresh_interval_not_met 2000
    (create_jwt_token 1000 admin_user_payload none) (by decide) (by decide)
    (by decide) (by decide) (by decide)
  simpa [create_jwt_token, REFRESH_INTERVAL_SECONDS] using h

/-- C5: a token whose signature does not verify under the signing secret
is rejected by full verification with the credentials 401 and by the
refresh flow with the invalid-format 401 — in particular neither path
returns the Expired outcome for it. -/
theorem C5_bad_signature_rejected (now : Int) (t : Token)
    (h : signatureInvalid t = true) :
    verify_jwt_token now t = .error .credentials
    ∧ refresh_token now (some t) = .error .invalidTokenFormat := by
  cases t with
  | malformed raw =>
    simp [verify_jwt_token, refresh_token, get_token_data_for_refresh,
      jwtDecode]
  | signed p k =>
    have hk : k ≠ SECRET_KEY := by
      simpa [signatureInvalid] using h
    simp [verify_jwt_token, refresh_token, get_token_data_for_refresh,
      jwtDecode, hk]

/-- C5 witness: an admin token re-signed under an attacker key is
rejected as invalid on both paths. -/
theorem C5_witness :
    verify_jwt_token 50
        (Token.signed (create_jwt_token 0 admin_user_payload none)
          "attacker_key")
      = .error .credentials
    ∧ refresh_token 50
        (some (Token.signed (create_jwt_token 0 admin_user_payload none)
          "attacker_key"))
      = .error .invalidTokenFormat :=
  C5_bad_signature_rejected 50
    (Token.signed (create_jwt_token 0 admin_user_payload none)
      "attacker_key") (by decide)

/-- C10: `read_roles` treats every falsy `account_id` alike: with
`account_id = 0`, `None`, or omitted (the default is `None`) it returns
the names of all roles in the system, so account id 0 is
indistinguishable from requesting the full role list. -/
theorem C10_read_roles_falsy_account (db : DBState) :
    read_roles db (some 0) = db.roles.map Role.name
    ∧ read_roles db none = db.roles.map Role.name
    ∧ read_roles db = db.roles.map Role.name := by
  simp [read_roles, truthyInt]

/-- C8: the renewal middleware passes an absent cookie through unchanged,
passes through any token whose signature is invalid or whose structure is
malformed, and short-circuits with 401 (handler never invoked) any
correctly signed token whose `exp` is strictly in the past. -/
theorem C8_middleware_gatekeeping (now : Int) (t : Token) (c : Claims)
    (e : Int) (hsig : mwSignatureInvalid t = true)
    (hexp : c.exp = some e) (hpast : e < now) :
    mw_dispatch now none = .passThrough
    ∧ mw_dispatch now (some t) = .passThrough
    ∧ mw_dispatch now (some (Token.signed c MW_SECRET_KEY)) = .unauthorized := by
  refine ⟨rfl, ?_, ?_⟩
  · cases t with
    | malformed raw => simp [mw_dispatch, jwtDecode]
    | signed p k =>
      have hk : k ≠ MW_SECRET_KEY := by
        simpa [mwSignatureInvalid] using hsig
      simp [mw_dispatch, jwtDecode, hk]
  · simp [mw_dispatch, jwtDecode, hexp, hpast]

/-- C8 witness: at time 100, no cookie and a malformed token pass
through, and a correctly signed token expired at 50 is 401ed. -/
theorem C8_witness :
    mw_dispatch 100 none = .passThrough
    ∧ mw_dispatch 100 (some (Token.malformed "x")) = .passThrough
    ∧ mw_dispatch 100
        (some (Token.signed { noneClaims with exp := some 50 } MW_SECRET_KEY))
      = .unauthorized :=
  C8_middleware_gatekeeping 100 (Token.malformed "x")
    { noneClaims with exp := some 50 } 50 (by decide) (by decide) (by decide)

/-- C9: when the middleware reissues a token (correctly signed, not yet
expired, access expiry within the renew threshold), the new payload is
the old payload with only `exp` overwritten; every other claim — `sub`,
`iat`, `max_exp`, and all identity and role fields — is carried over
unchanged. -/
theorem C9_renewal_changes_only_exp (now : Int) (c : Claims) (e : Int)
    (hexp : c.exp = some e) (hnp : now ≤ e)
    (hth : e - now ≤ TOKEN_RENEW_THRESHOLD_SECONDS) :
    mw_dispatch now (some (Token.signed c MW_SECRET_KEY))
      = .renewed (Token.signed
          { c with exp := some (now + MW_ACCESS_TOKEN_EXPIRE_SECONDS) }
          MW_SECRET_KEY)
    ∧ ({ c with exp := some (now + MW_ACCESS_TOKEN_EXPIRE_SECONDS) } : Claims).sub = c.sub
    ∧ ({ c with exp := some (now + MW_ACCESS_TOKEN_EXPIRE_SECONDS) } : Claims).iat = c.iat
    ∧ ({ c with exp := some (now + MW_ACCESS_TOKEN_EXPIRE_SECONDS) } : Claims).max_exp = c.max_exp
    ∧ ({ c with exp := some (now + MW_ACCESS_TOKEN_EXPIRE_SECONDS) } : Claims).userId = c.userId
    ∧ ({ c with exp := some (now + MW_ACCESS_TOKEN_EXPIRE_SECONDS) } : Claims).username = c.username
    ∧ ({ c with exp := some (now + MW_ACCESS_TOKEN_EXPIRE_SECONDS) } : Claims).fullname = c.fullname
    ∧ ({ c with exp := some (now + MW_ACCESS_TOKEN_EXPIRE_SECONDS) } : Claims).title = c.title
    ∧ ({ c with exp := some (now + MW_ACCESS_TOKEN_EXPIRE_SECONDS) } : Claims).email = c.email
    ∧ ({ c with exp := some (now + MW_ACCESS_TOKEN_EXPIRE_SECONDS) } : Claims).roles = c.roles := by
  have hnotpast : ¬ (e < now) := by omega
  refine ⟨?_, rfl, rfl, rfl, rfl, rfl, rfl, rfl, rfl, rfl⟩
  simp [mw_dispatch, jwtDecode, hexp, hnotpast, hth]

/-- C9 witness: an admin token expiring at 86400 is renewed at 86000 to
expire at 87200, all other claims unchanged. -/
theorem C9_witness :
    mw_dispatch 86000
      (some (Token.signed (create_jwt_token 0 admin_user_payload none)
        MW_SECRET_KEY))
      = .renewed (Token.signed
          { (create_jwt_token 0 admin_user_payload none) with
              exp := some (86000 + MW_ACCESS_TOKEN_EXPIRE_SECONDS) }
          MW_SECRET_KEY) :=
  (C9_renewal_changes_only_exp 86000
    (create_jwt_token 0 admin_user_payload none) 86400 (by decide)
    (by decide) (by decide)).1

/-- C1 counterexample: a successful refresh at time 605000 of the admin
token issued at time 1000 (whose `max_exp` is 605800) produces a token
with `exp = 691400 > max_exp = 605800`, refuting the claim that every
token produced by issuance satisfies `exp ≤ max_exp`. -/
theorem C1_counterexample :
    refresh_token 605000
      (some (Token.signed (create_jwt_token 1000 admin_user_payload none)
        SECRET_KEY))
      = .ok (.refreshed,
          some (Token.signed
            (create_jwt_token 605000 admin_user_payload (some 605800))
            SECRET_KEY))
    ∧ (create_jwt_token 605000 admin_user_payload (some 605800)).exp
        = some 691400
    ∧ (create_jwt_token 605000 admin_user_payload (some 605800)).max_exp
        = some 605800
    ∧ expWithinMaxB (create_jwt_token 605000 admin_user_payload (some 605800))
        = false :=
  ⟨by rfl, by decide, by decide, by decide⟩

/-- C1 amended: at fresh issuance `exp ≤ max_exp` always holds, and any
successful refresh carries the original `max_exp` forward unchanged into
the new token; but the refreshed token satisfies `exp ≤ max_exp` only
when the refresh happens at least `ACCESS_TTL` before the absolute
expiry (`now + ACCESS_TTL ≤ max_exp`). -/
theorem C1_amended_issuance_invariant (t now : Int) (u : UserPayload)
    (c : Claims) (res : RefreshResult) (p : Claims) (k : String)
    (hr : refresh_token now (some (Token.signed c SECRET_KEY))
      = .ok (res, some (Token.signed p k))) :
    expWithinMaxB (create_jwt_token t u none) = true
    ∧ p.max_exp = c.max_exp
    ∧ (∀ m, c.max_exp = some m → now + ACCESS_TOKEN_EXPIRE_SECONDS ≤ m →
        expWithinMaxB p = true) := by
  have hfresh : expWithinMaxB (create_jwt_token t u none) = true := by
    have hle : t + ACCESS_TOKEN_EXPIRE_SECONDS
        ≤ max (t + ACCESS_TOKEN_EXPIRE_SECONDS)
          (t + MAX_TOKEN_LIFETIME_SECONDS) := le_max_left _ _
    simp [expWithinMaxB, create_jwt_token, hle]
  cases htr : (truthyStr c.sub && truthyInt c.iat && truthyInt c.max_exp) with
  | false =>
    have hg : get_token_data_for_refresh now
        (some (Token.signed c SECRET_KEY)) = .error .invalidTokenStructure := by
      simp [get_token_data_for_refresh, jwtDecode, htr]
    unfold refresh_token at hr
    rw [hg] at hr
    simp at hr
  | true =>
    have hg : get_token_data_for_refresh now
        (some (Token.signed c SECRET_KEY))
        = .ok (Token.signed c SECRET_KEY, c) := by
      simp [get_token_data_for_refresh, jwtDecode, htr]
    obtain ⟨m, hm⟩ : ∃ m, c.max_exp = some m := by
      cases hc : c.max_exp with
      | none => rw [hc] at htr; simp [truthyInt] at htr
      | some m => exact ⟨m, rfl⟩
    unfold refresh_token at hr
    rw [hg] at hr
    simp only [hm, Option.getD_some] at hr
    by_cases hlife : now > m
    · rw [if_pos hlife] at hr
      simp at hr
    · rw [if_neg hlife] at hr
      by_cases hearly : now < c.iat.getD 0 + REFRESH_INTERVAL_SECONDS
      · rw [if_pos hearly] at hr
        simp at hr
      · rw [if_neg hearly] at hr
        have hp : ∃ user, p = create_jwt_token now user (some m) := by
          cases hv : verify_jwt_token now (Token.signed c SECRET_KEY) with
          | error e' =>
            rw [hv] at hr
            cases e' with
            | credentials => simp at hr
            | maxLifetime => simp at hr
            | tokenExpired =>
              cases hdb : users_db (c.sub.getD "") with
              | none => rw [hdb] at hr; simp at hr
              | some user =>
                rw [hdb] at hr
                simp only [Except.ok.injEq, Prod.mk.injEq, Option.some.injEq,
                  Token.signed.injEq] at hr
                exact ⟨user, hr.2.1.symm⟩
          | ok u' =>
            rw [hv] at hr
            cases hdb : users_db (c.sub.getD "") with
            | none => rw [hdb] at hr; simp at hr
            | some user =>
              rw [hdb] at hr
              simp only [Except.ok.injEq, Prod.mk.injEq, Option.some.injEq,
                Token.signed.injEq] at hr
              exact ⟨user, hr.2.1.symm⟩
        obtain ⟨user, hp⟩ := hp
        refine ⟨hfresh, ?_, ?_⟩
        · rw [hp, hm]
          simp [create_jwt_token]
        · intro m' hm' hle
          rw [hm] at hm'
          injection hm' with hm'
          subst hm'
          rw [hp]
          simp [expWithinMaxB, create_jwt_token, hle]

/-- C1 amended witness: fresh issuance at 0 satisfies the invariant, and
the refresh at 5000 of the token issued at 1000 carries `max_exp = 605800`
forward unchanged. -/
theorem C1_amended_witness :
    expWithinMaxB (create_jwt_token 0 admin_user_payload none) = true
    ∧ (create_jwt_token 5000 admin_user_payload (some 605800)).max_exp
        = (create_jwt_token 1000 admin_user_payload none).max_exp := by
  have h := C1_amended_issuance_invariant 0 5000 admin_user_payload
    (create_jwt_token 1000 admin_user_payload none) .refreshed
    (create_jwt_token 5000 admin_user_payload (some 605800)) SECRET_KEY
    (by rfl)
  exact ⟨h.1, h.2.1⟩

/-- C6 counterexample: granting role 2 to account 7 when the pair is
absent from the store inserts the assignment row but leaves the
`log_role_permission` audit table empty — no audit entry is recorded,
refuting the audit half of the claim. -/
theorem C6_counterexample :
    ensure_user_has_role dbExample 7 2 "newuser"
      = .ok ({ dbExample with
                role_permissions := [{ role_id := 2, account_id := 7 }] },
             "Role successfully assigned to user newuser.")
    ∧ ({ dbExample with
          role_permissions := [{ role_id := 2, account_id := 7 }] } : DBState).log_role_permissions
        = [] :=
  ⟨by rfl, by rfl⟩

/-- C6 amended: granting a role to an account when the pair already
exists is a no-op that inserts nothing, so granting twice from a state
without the pair leaves exactly one assignment row; granting when the
pair is absent inserts the assignment row — but no audit entry is
recorded in the `log_role_permission` log on either call (the code never
writes that table). -/
theorem C6_amended_grant_idempotent (db : DBState) (aid rid : Int)
    (uname : String)
    (hnone : (db.role_permissions.filter fun rp =>
      rp.account_id == aid && rp.role_id == rid) = []) :
    ensure_user_has_role db aid rid uname
      = .ok (grantedState db aid rid,
             "Role successfully assigned to user " ++ uname ++ ".")
    ∧ ensure_user_has_role (grantedState db aid rid) aid rid uname
      = .ok (grantedState db aid rid,
             "Role already assigned to user " ++ uname ++ ".")
    ∧ ((grantedState db aid rid).role_permissions.filter fun rp =>
        rp.account_id == aid && rp.role_id == rid).length = 1
    ∧ (grantedState db aid rid).log_role_permissions
        = db.log_role_permissions := by
  have hfilter : ((grantedState db aid rid).role_permissions.filter fun rp =>
      rp.account_id == aid && rp.role_id == rid)
      = [{ role_id := rid, account_id := aid }] := by
    simp [grantedState, List.filter_append, hnone]
  refine ⟨?_, ?_, ?_, rfl⟩
  · simp [ensure_user_has_role, scalar_one_or_none, hnone, grantedState]
  · simp [ensure_user_has_role, scalar_one_or_none, hfilter]
  · simp [hfilter]

/-- C6 amended witness: granting role 2 to account 7 twice on the
example store leaves one row, reports the second grant as already
assigned, and writes no audit entry. -/
theorem C6_amended_witness :
    ensure_user_has_role dbExample 7 2 "newuser"
      = .ok (grantedState dbExample 7 2,
             "Role successfully assigned to user newuser.")
    ∧ ensure_user_has_role (grantedState dbExample 7 2) 7 2 "newuser"
      = .ok (grantedState dbExample 7 2,
             "Role already assigned to user newuser.")
    ∧ ((grantedState dbExample 7 2).role_permissions.filter fun rp =>
        rp.account_id == 7 && rp.role_id == 2).length = 1
    ∧ (grantedState dbExample 7 2).log_role_permissions
        = dbExample.log_role_permissions :=
  C6_amended_grant_idempotent dbExample 7 2 "newuser" (by decide)

/-- C7: the roles placed in the login response are all role names in the
system when the account's `is_super_admin` flag is true, and, for a
persisted account (positive id) whose flag is not true, a name is in the
response exactly when some role of the system with that name is assigned
to the account through a `role_permission` row. -/
theorem C7_login_role_resolution (db : DBState) (u : Account)
    (hid : 0 < u.id) :
    (u.is_super_admin = some true →
      get_user_roles db u = db.roles.map Role.name)
    ∧ (u.is_super_admin ≠ some true →
      ∀ r, r ∈ get_user_roles db u ↔
        ∃ role, role ∈ db.roles ∧ role.name = r ∧
          ∃ rp, rp ∈ db.role_permissions ∧ rp.role_id = role.id ∧
            rp.account_id = u.id) := by
  constructor
  · intro h
    simp [get_user_roles, read_roles, truthyInt, h]
  · intro h r
    have hbeq : (u.is_super_admin == some true) = false := by
      simpa using h
    have hne : u.id ≠ 0 := by omega
    simp only [get_user_roles, hbeq, if_false, Bool.false_eq_true, reduceIte,
      read_roles, truthyInt, hne, ne_eq, not_false_eq_true, decide_True,
      if_true, Option.getD_some]
    simp only [List.mem_flatten, List.mem_map, List.mem_filter]
    constructor
    · rintro ⟨l, ⟨role, hrole, rfl⟩, hrl⟩
      rcases List.mem_map.mp hrl with ⟨rp, hrp, rfl⟩
      rcases List.mem_filter.mp hrp with ⟨hrpmem, hcond⟩
      rw [Bool.and_eq_true] at hcond
      exact ⟨role, hrole, rfl,
        rp, hrpmem, (beq_iff_eq.mp hcond.1), (beq_iff_eq.mp hcond.2)⟩
    · rintro ⟨role, hrole, rfl, rp, hrpmem, hrid, haid⟩
      refine ⟨(db.role_permissions.filter fun rp =>
          rp.role_id == role.id && rp.account_id == u.id).map
          fun _ => role.name, ⟨role, hrole, rfl⟩, ?_⟩
      exact List.mem_map.mpr ⟨rp,
        List.mem_filter.mpr ⟨hrpmem, by simp [hrid, haid]⟩, rfl⟩

/-- C7 witness: a super-admin account sees every role name of the
example store. -/
theorem C7_witness :
    get_user_roles dbExample
      { id := 1, username := "admin", is_super_admin := some true }
      = ["Admin", "User"] := by
  have h := (C7_login_role_resolution dbExample
    { id := 1, username := "admin", is_super_admin := some true }
    (by decide)).1 rfl
  simpa [dbExample] using h

end AuthSpec
